import Mathlib

/-!
Verification of the TN litter dashboard data pipeline (`src/app.py`).

The file shallowly embeds the data-preparation code of the dashboard:
tables become lists of records, pandas operations become explicit list
functions, floating-point special values (NaN, infinities) produced by
`pct_change` become an explicit inductive type, and fallible pandas calls
(`pd.cut`) return `Except`.  All numeric columns are modelled as `ℚ`.
-/

namespace TNLitter

/-! ## Data model (spec §3, columns as read by `app.py`) -/

/-- One row of `yearly_state.csv`: columns `year, litter, recycled, dumps,
partners` (`df_state` in `app.py`). -/
structure StateYearRecord where
  year : ℤ
  litter : ℚ
  recycled : ℚ
  dumps : ℚ
  partners : ℚ
deriving DecidableEq, Repr

/-- One row of `yearly_county.csv`: columns `county, year, litter, recycled,
dumps` (`df_map` in `app.py`). -/
structure CountyYearRecord where
  county : String
  year : ℤ
  litter : ℚ
  recycled : ℚ
  dumps : ℚ
deriving DecidableEq, Repr

/-- One row of `monthly_county.csv`: columns `county, year, month, litter,
recycled` (`df_monthly_county` in `app.py`). -/
structure CountyMonthRecord where
  county : String
  year : ℤ
  month : String
  litter : ℚ
  recycled : ℚ
deriving DecidableEq, Repr

/-- One row of `monthly_state.csv` (`df_monthly_state`; loaded by
`load_monthly_data` but never consumed by any chart). -/
structure StateMonthRecord where
  month : String
  litter : ℚ
  recycled : ℚ
deriving DecidableEq, Repr

/-- The map metric selected by the radio control in `app.py`
(`["litter", "recycled", "dumps"]`). -/
inductive Metric where
  | litter
  | recycled
  | dumps
deriving DecidableEq, Repr

/-- Column access `d[metric]` on a county-year row. -/
def metricVal : Metric → CountyYearRecord → ℚ
  | .litter, r => r.litter
  | .recycled, r => r.recycled
  | .dumps, r => r.dumps

/-! ## Generic list machinery shared by the embedding

`DataFrame.sort_values` on a single key goes through pandas `nargsort`.
For `ascending=True` it is the argsort of the key column; for
`ascending=False` pandas reverses the rows *before* the ascending argsort
and reverses the resulting indexer *after* (the tie-stability fix of
pandas GH#6399), so descending sorts keep equal-keyed rows in their
original input order whenever the underlying argsort is stable.  For the
slice sizes the claims quantify over (and for every slice shorter than
numpy's introsort cutoff) the ascending argsort is the stable insertion
order, so the embedding uses a stable insertion sort by key; descending
order is `reverse ∘ sort ∘ reverse` of it, exactly mirroring `nargsort`. -/

/-- Stable insertion of `x` into a list ascending by key `k`: `x` is placed
before the first element whose key is `≥ k x`, so among equal keys earlier
input rows stay first. -/
def insertAscBy {α β : Type} [LinearOrder β] (k : α → β) (x : α) : List α → List α
  | [] => [x]
  | y :: ys => if k x ≤ k y then x :: y :: ys else y :: insertAscBy k x ys

/-- Stable ascending sort by key `k` (the embedding of
`sort_values(key, ascending=True)`). -/
def sortAscBy {α β : Type} [LinearOrder β] (k : α → β) : List α → List α
  | [] => []
  | x :: xs => insertAscBy k x (sortAscBy k xs)

/-! ## Floating-point helpers

The columns are read as floats; `pct_change` can produce NaN and the two
infinities.  `PcVal` makes those values explicit. -/

/-- A float value produced by `pct_change`: a finite rational, an
infinity, or NaN. -/
inductive PcVal where
  | nan
  | posInf
  | negInf
  | val (q : ℚ)
deriving DecidableEq, Repr

/-- One step of `Series.pct_change`: the float `(cur - prev) / prev`.
When `prev = 0` IEEE division gives `+inf`, `-inf` or NaN (`0/0`)
according to the sign of `cur`. -/
def pctStep (prev cur : ℚ) : PcVal :=
  if prev = 0 then
    if 0 < cur then .posInf
    else if cur < 0 then .negInf
    else .nan
  else .val ((cur - prev) / prev)

/-- Round a rational to the nearest integer, ties to even — the rounding
used by numpy/pandas `round`. -/
def roundHalfEven (q : ℚ) : ℤ :=
  if q - (⌊q⌋ : ℚ) < 1 / 2 then ⌊q⌋
  else if 1 / 2 < q - (⌊q⌋ : ℚ) then ⌊q⌋ + 1
  else if ⌊q⌋ % 2 = 0 then ⌊q⌋ else ⌊q⌋ + 1

/-- `Series.round(1)`: round to one decimal place (half-to-even). -/
def round1 (q : ℚ) : ℚ := (roundHalfEven (q * 10) : ℚ) / 10

/-- Python `int(x)`: truncation toward zero. -/
def pyTrunc (q : ℚ) : ℤ := if 0 ≤ q then ⌊q⌋ else -⌊-q⌋

/-- Python `f"{q:.1f}"` on the exact rational `q`: one decimal digit,
rounded half-to-even. -/
def formatOneDec (q : ℚ) : String :=
  (if roundHalfEven (q * 10) < 0 then "-" else "")
    ++ toString ((roundHalfEven (q * 10)).natAbs / 10)
    ++ "." ++ toString ((roundHalfEven (q * 10)).natAbs % 10)

/-! ## KPI magnitude formatter (`fmt` inside the KPI row of `app.py`) -/

/-- The KPI formatter `fmt` of `app.py`:
values `≥ 1_000_000` render as `f"{x / 1_000_000:.1f}M"`, values
`≥ 1_000` as `f"{x / 1_000:.1f}K"`, anything else as `f"{int(x)}"`. -/
def fmt (x : ℚ) : String :=
  if x ≥ 1000000 then formatOneDec (x / 1000000) ++ "M"
  else if x ≥ 1000 then formatOneDec (x / 1000) ++ "K"
  else toString (pyTrunc x)

/-! ## Year-over-year recycling growth (tab_trends in `app.py`)

`df_state.sort_values("year")`, then
`recycle_growth_pct = recycled.pct_change()`, then
`dropna(subset=["recycle_growth_pct"])`, then
`growth_percent = (recycle_growth_pct * 100).round(1)` and a colour from
the sign of `growth_percent`.  `pct_change` yields NaN at the first row
(there is no prior row), so `dropna` always removes it; the embedding
`pcList` therefore emits one entry per consecutive pair of rows, tagged
with the later row's year, and the NaN filter removes the remaining NaN
entries (`0/0` pairs). -/

/-- The `pct_change` entries of a (year, recycled) column pair list, one
entry per consecutive row pair, keyed by the later row's year.  The
always-NaN first entry of `pct_change` is omitted here; `dropna`
(the filter in `growthSeries`) removes it unconditionally. -/
def pcList : List (ℤ × ℚ) → List (ℤ × PcVal)
  | [] => []
  | a :: tl =>
    match tl with
    | [] => []
    | b :: _ => (b.1, pctStep a.2 b.2) :: pcList tl

/-- `df_growth` of tab_trends: sort the state table ascending by year,
take `pct_change` of the `recycled` column, and drop NaN rows. -/
def growthSeries (df_state : List StateYearRecord) : List (ℤ × PcVal) :=
  let s := sortAscBy (fun r => r.year) df_state
  (pcList (s.map (fun r => (r.year, r.recycled)))).filter (fun p => p.2 ≠ PcVal.nan)

/-- `(x * 100).round(1)` lifted to float specials: infinities are fixed
points of scaling and rounding. -/
def pctTimes100Round : PcVal → PcVal
  | .val q => .val (round1 (q * 100))
  | v => v

/-- The colour lambda of tab_trends: `"#2ca02c"` (green) when
`x >= 0`, `"#d62728"` (red) otherwise.  In float comparisons
`+inf >= 0` is true and `-inf >= 0` and `nan >= 0` are false. -/
def growthColor : PcVal → String
  | .val q => if 0 ≤ q then "#2ca02c" else "#d62728"
  | .posInf => "#2ca02c"
  | _ => "#d62728"

/-- The rows of the growth bar chart: year, `growth_percent`
(percentage rounded to one decimal) and bar colour. -/
def growthTable (df_state : List StateYearRecord) : List (ℤ × PcVal × String) :=
  (growthSeries df_state).map
    (fun p => (p.1, pctTimes100Round p.2, growthColor (pctTimes100Round p.2)))

/-- The year of the earliest row of the sorted state table (0 when the
table is empty; only used under a nonemptiness hypothesis). -/
def firstYear (df_state : List StateYearRecord) : ℤ :=
  match sortAscBy (fun r => r.year) df_state with
  | [] => 0
  | r :: _ => r.year

/-! ## Dataset loader (`load_yearly_data` / `load_monthly_data`)

File reads are modelled as `Except`-valued inputs: `.ok rows` for a file
that reads and parses, `.error e` for a `pd.read_csv`/`json.load`
exception.  The GeoJSON is modelled by what the pipeline consumes of it:
the list of county names under the configured feature property. -/

/-- Python `str.strip()` with no argument (ASCII whitespace portion):
remove leading and trailing whitespace characters. -/
def isPySpace (c : Char) : Bool :=
  c = ' ' || c = '\t' || c = '\n' || c = '\r' || c.val = 11 || c.val = 12

/-- Python `str.strip()`: drop whitespace from both ends. -/
def pyStrip (s : String) : String :=
  String.mk (((s.data.dropWhile isPySpace).reverse.dropWhile isPySpace).reverse)

/-- `load_yearly_data`: read the state CSV, the county CSV and the
GeoJSON; any failed read propagates (there is no try/except).  The single
normalisation step is `df_map["county"] = df_map["county"].str.strip()`. -/
def load_yearly_data
    (stateRead : Except String (List StateYearRecord))
    (countyRead : Except String (List CountyYearRecord))
    (geoRead : Except String (List String)) :
    Except String (List StateYearRecord × List CountyYearRecord × List String) := do
  let df_state ← stateRead
  let df_map ← countyRead
  let geojson ← geoRead
  pure (df_state, df_map.map (fun r => { r with county := pyStrip r.county }), geojson)

/-- `load_monthly_data`: each monthly CSV is read inside
`try/except Exception`, substituting an empty DataFrame on any failure;
no exception escapes and no normalisation is applied. -/
def load_monthly_data
    (countyRead : Except String (List CountyMonthRecord))
    (stateRead : Except String (List StateMonthRecord)) :
    List CountyMonthRecord × List StateMonthRecord :=
  ( match countyRead with
    | .ok t => t
    | .error _ => []
  , match stateRead with
    | .ok t => t
    | .error _ => [] )

/-! ## `pd.cut` and the intensity binning of tab_overview -/

/-- Some adjacent pair of bin edges strictly decreases
(`(np.diff(bins) < 0).any()` in `pd.cut`). -/
def binsDecreasing : List ℚ → Bool
  | b0 :: b1 :: rest => b1 < b0 || binsDecreasing (b1 :: rest)
  | _ => false

/-- The list contains a duplicate element (`len(unique_bins) < len(bins)`
in `pd.cut`). -/
def hasDup : List ℚ → Bool
  | [] => false
  | x :: xs => xs.contains x || hasDup xs

/-- Interval lookup of `pd.cut`: a value `x` falls in the first interval
`(b_i, b_(i+1)]`; with `include_lowest=True` the very first interval is
closed on the left.  Values outside every interval map to `none` (NaN). -/
def cutAssign (x : ℚ) : List ℚ → List String → Bool → Option String
  | b0 :: b1 :: rest, lab :: labs, isFirst =>
    if (if isFirst then b0 ≤ x else b0 < x) && x ≤ b1 then some lab
    else cutAssign x (b1 :: rest) labs false
  | _, _, _ => none

/-- `pd.cut(values, bins=bins, labels=labels, include_lowest=True)` with
the default `duplicates="raise"`: error when the edges decrease somewhere
(`bins must increase monotonically`), then when edges repeat
(`Bin edges must be unique`); otherwise label every value. -/
def pdCut (values : List ℚ) (bins : List ℚ) (labels : List String)
    (includeLowest : Bool) : Except String (List (Option String)) :=
  if binsDecreasing bins then .error "bins must increase monotonically"
  else if hasDup bins && bins.length ≠ 2 then .error "Bin edges must be unique"
  else .ok (values.map (fun x => cutAssign x bins labels includeLowest))

/-- The five intensity labels of tab_overview. -/
def intensityLabels : List String := ["Very Low", "Low", "Medium", "High", "Very High"]

/-- The intensity-binning call of tab_overview on a non-empty metric
column slice `v :: vs`: `max_val = d[metric].max()`, six equally spaced
edges `[0, 0.2, 0.4, 0.6, 0.8, 1.0] * max_val`, then `pd.cut` with
`include_lowest=True`. -/
def intensityBin (v : ℚ) (vs : List ℚ) : Except String (List (Option String)) :=
  let max_val := vs.foldl max v
  let bins := [0, 0.2 * max_val, 0.4 * max_val, 0.6 * max_val, 0.8 * max_val, max_val]
  pdCut (v :: vs) bins intensityLabels true

/-! ## Rendered outputs of the tabs -/

/-- An item rendered by a tab: a chart or a streamlit message
(`st.warning` / `st.info`). -/
inductive RenderItem where
  | choropleth (rows : List (String × Option String))
  | barChart (rows : List (String × ℚ))
  | warning (msg : String)
  | info (msg : String)
deriving DecidableEq, Repr

/-- Whether an output contains an explicit no-data message
(an `st.warning` or `st.info` item). -/
def hasNoDataMessage (items : List RenderItem) : Bool :=
  items.any (fun it =>
    match it with
    | .warning _ => true
    | .info _ => true
    | _ => false)

/-- The map column of tab_overview: filter `df_map` to the selected year;
if the slice is non-empty compute `max_val`, the six bin edges and the
`pd.cut` intensity labels and emit the choropleth (county paired with
intensity), else emit `st.warning("No data available for selected
year.")`.  `pd.cut` failures propagate as the script's uncaught
exception. -/
def tabOverviewMap (df_map : List CountyYearRecord) (year : ℤ) (metric : Metric) :
    Except String (List RenderItem) :=
  match df_map.filter (fun r => r.year = year) with
  | [] => .ok [.warning "No data available for selected year."]
  | r :: rest => do
    let intens ← intensityBin (metricVal metric r) (rest.map (metricVal metric))
    pure [.choropleth (((r :: rest).map (fun c => c.county)).zip intens)]

/-- The top-10 slice of tab_compare:
`df_map[df_map["year"] == year].sort_values(metric, ascending=False).head(10)`.
pandas `nargsort` implements descending order by reversing the rows
before a stable ascending argsort and reversing the indexer afterwards,
which yields non-increasing metric order with ties kept in original
input order; the embedding is the same double reversal around the stable
ascending sort. -/
def top10 (df_map : List CountyYearRecord) (year : ℤ) (metric : Metric) :
    List CountyYearRecord :=
  ((sortAscBy (metricVal metric)
      ((df_map.filter (fun r => r.year = year)).reverse)).reverse).take 10

/-- tab_compare: always renders the bar chart of the top-10 slice; there
is no empty-slice guard and no message branch in this tab. -/
def tabCompare (df_map : List CountyYearRecord) (year : ℤ) (metric : Metric) :
    List RenderItem :=
  [.barChart ((top10 df_map year metric).map (fun r => (r.county, metricVal metric r)))]

/-! ## Monthly trend ordering (tab_overview right column) -/

/-- The fixed fiscal-month ordering `month_order` of `app.py`. -/
def month_order : List String :=
  ["July", "Aug", "Sept", "Oct", "Nov", "Dec", "Jan", "Feb", "Mar", "Apr", "May", "June"]

/-- The sort key given to a month name by
`pd.Categorical(..., categories=month_order, ordered=True)`: its index in
`month_order`.  A name outside the list becomes NaN, which
`sort_values` places last (`List.indexOf` returns the length there). -/
def monthKey (m : String) : ℕ := month_order.indexOf m

/-- The monthly slice of tab_overview: rows of `df_monthly_county`
matching the selected county and year, sorted by the ordered fiscal-month
categorical. -/
def resolveMonthly (df_monthly_county : List CountyMonthRecord)
    (county : String) (year : ℤ) : List CountyMonthRecord :=
  sortAscBy (fun r => monthKey r.month)
    (df_monthly_county.filter (fun r => r.county = county && r.year = year))

/-! ## Lemmas about the stable sort -/

theorem perm_insertAscBy {α β : Type} [LinearOrder β] (k : α → β) (x : α) :
    ∀ l : List α, List.Perm (insertAscBy k x l) (x :: l) := by
  intro l
  induction l with
  | nil => simp [insertAscBy]
  | cons y ys ih =>
    by_cases h : k x ≤ k y
    · simp [insertAscBy, h]
    · rw [insertAscBy, if_neg h]
      exact (ih.cons y).trans (List.Perm.swap x y ys)

theorem perm_sortAscBy {α β : Type} [LinearOrder β] (k : α → β) :
    ∀ l : List α, List.Perm (sortAscBy k l) l := by
  intro l
  induction l with
  | nil => simp [sortAscBy]
  | cons x xs ih =>
    simpa [sortAscBy] using (perm_insertAscBy k x (sortAscBy k xs)).trans (ih.cons x)

theorem pairwise_insertAscBy {α β : Type} [LinearOrder β] (k : α → β) (x : α)
    (l : List α) (hl : l.Pairwise (fun a b => k a ≤ k b)) :
    (insertAscBy k x l).Pairwise (fun a b => k a ≤ k b) := by
  induction l with
  | nil => simp [insertAscBy]
  | cons y ys ih =>
    rcases List.pairwise_cons.mp hl with ⟨hy, hys⟩
    by_cases h : k x ≤ k y
    · rw [insertAscBy, if_pos h]
      refine List.pairwise_cons.mpr ⟨?_, hl⟩
      intro b hb
      rcases List.mem_cons.mp hb with rfl | hb
      · exact h
      · exact le_trans h (hy _ hb)
    · rw [insertAscBy, if_neg h]
      refine List.pairwise_cons.mpr ⟨?_, ih hys⟩
      intro b hb
      have hxy : k y ≤ k x := le_of_not_le h
      have hb' : b ∈ x :: ys := (perm_insertAscBy k x ys).mem_iff.mp hb
      rcases List.mem_cons.mp hb' with rfl | hb2
      · exact hxy
      · exact hy _ hb2

theorem pairwise_sortAscBy {α β : Type} [LinearOrder β] (k : α → β) :
    ∀ l : List α, (sortAscBy k l).Pairwise (fun a b => k a ≤ k b) := by
  intro l
  induction l with
  | nil => simp [sortAscBy]
  | cons x xs ih => exact pairwise_insertAscBy k x _ ih

theorem length_sortAscBy {α β : Type} [LinearOrder β] (k : α → β) (l : List α) :
    (sortAscBy k l).length = l.length :=
  (perm_sortAscBy k l).length_eq

theorem filter_insertAscBy {α β : Type} [LinearOrder β] (k : α → β) (v : β) (x : α) :
    ∀ l : List α, (insertAscBy k x l).filter (fun a => k a = v)
      = (x :: l).filter (fun a => k a = v) := by
  intro l
  induction l with
  | nil => rfl
  | cons y ys ih =>
    by_cases h : k x ≤ k y
    · rw [insertAscBy, if_pos h]
    · rw [insertAscBy, if_neg h]
      have hyx : k y < k x := lt_of_not_le h
      by_cases hy : k y = v
      · have hx : ¬(k x = v) := fun hx => (ne_of_lt hyx) (hy.trans hx.symm)
        simp [List.filter_cons, hy, hx, ih]
      · simp [List.filter_cons, hy, ih]

/-- Stability of the ascending sort: filtering by any single key value
recovers the original subsequence, i.e. equal-keyed rows keep their
relative input order. -/
theorem filter_sortAscBy {α β : Type} [LinearOrder β] (k : α → β) (v : β) :
    ∀ l : List α, (sortAscBy k l).filter (fun a => k a = v)
      = l.filter (fun a => k a = v) := by
  intro l
  induction l with
  | nil => rfl
  | cons x xs ih =>
    rw [sortAscBy, filter_insertAscBy, List.filter_cons, List.filter_cons, ih]

/-! ## Lemmas about the growth series -/

theorem pctStep_ne_nan {prev cur : ℚ} (h : ¬(prev = 0 ∧ cur = 0)) :
    pctStep prev cur ≠ PcVal.nan := by
  unfold pctStep
  by_cases hp : prev = 0
  · simp only [hp, if_true]
    by_cases hc : 0 < cur
    · simp [hc]
    · by_cases hc' : cur < 0
      · simp [hc, hc']
      · exact absurd ⟨hp, le_antisymm (le_of_not_lt hc) (le_of_not_lt hc')⟩ h
  · simp [hp]

theorem pcList_map_fst : ∀ l : List (ℤ × ℚ),
    (pcList l).map Prod.fst = (l.map Prod.fst).tail := by
  intro l
  induction l with
  | nil => simp [pcList]
  | cons a tl ih =>
    cases tl with
    | nil => simp [pcList]
    | cons b rest => simpa [pcList] using ih

theorem length_filter_pcList : ∀ l : List (ℤ × ℚ),
    List.Chain' (fun a b => ¬(a = 0 ∧ b = 0)) (l.map Prod.snd) →
    ((pcList l).filter (fun p => p.2 ≠ PcVal.nan)).length = l.length - 1 := by
  intro l
  induction l with
  | nil => simp [pcList]
  | cons a tl ih =>
    cases tl with
    | nil => simp [pcList]
    | cons b rest =>
      intro hchain
      simp only [List.map_cons, List.chain'_cons] at hchain
      have hstep : pctStep a.2 b.2 ≠ PcVal.nan := pctStep_ne_nan hchain.1
      have htl : List.Chain' (fun x y => ¬(x = 0 ∧ y = 0)) ((b :: rest).map Prod.snd) := by
        simpa using hchain.2
      have hpc : ((pcList (a :: b :: rest)).filter (fun p => p.2 ≠ PcVal.nan))
          = (b.1, pctStep a.2 b.2) ::
            ((pcList (b :: rest)).filter (fun p => p.2 ≠ PcVal.nan)) := by
        simp [pcList, List.filter_cons, hstep]
      rw [hpc, List.length_cons, ih htl]
      simp only [List.length_cons]
      omega

/-! ## Evaluation lemmas for the rounding helpers -/

theorem roundHalfEven_down {q : ℚ} {f : ℤ} (h1 : (f : ℚ) ≤ q) (h2 : q < (f : ℚ) + 1 / 2) :
    roundHalfEven q = f := by
  have hf : ⌊q⌋ = f := Int.floor_eq_iff.mpr ⟨h1, by linarith⟩
  simp only [roundHalfEven, hf]
  rw [if_pos (by linarith)]

theorem roundHalfEven_up {q : ℚ} {f : ℤ} (h1 : (f : ℚ) + 1 / 2 < q) (h2 : q < (f : ℚ) + 1) :
    roundHalfEven q = f + 1 := by
  have hf : ⌊q⌋ = f := Int.floor_eq_iff.mpr ⟨by linarith, by linarith⟩
  simp only [roundHalfEven, hf]
  rw [if_neg (by linarith), if_pos (by linarith)]

/-! ## Claim theorems -/

/-- C4: the magnitude formatter satisfies `fmt 0 = "0"`, `fmt 999 = "999"`,
`fmt 1500 = "1.5K"`, `fmt 2300000 = "2.3M"`; in general values
`≥ 1_000_000` render as the value over a million with one decimal plus
`"M"`, values `≥ 1_000` render as the value over a thousand with one
decimal plus `"K"`, and all other values render as the truncated integer
string. -/
theorem C4_fmt_magnitudes :
    fmt 0 = "0" ∧ fmt 999 = "999" ∧ fmt 1500 = "1.5K" ∧ fmt 2300000 = "2.3M" ∧
    (∀ x : ℚ, 1000000 ≤ x → fmt x = formatOneDec (x / 1000000) ++ "M") ∧
    (∀ x : ℚ, 1000 ≤ x → x < 1000000 → fmt x = formatOneDec (x / 1000) ++ "K") ∧
    (∀ x : ℚ, x < 1000 → fmt x = toString (pyTrunc x)) := by
  have h15 : roundHalfEven ((1500 : ℚ) / 1000 * 10) = 15 :=
    roundHalfEven_down (by norm_num) (by norm_num)
  have h23 : roundHalfEven ((2300000 : ℚ) / 1000000 * 10) = 23 :=
    roundHalfEven_down (by norm_num) (by norm_num)
  refine ⟨by decide, by decide, ?_, ?_, ?_, ?_, ?_⟩
  · simp only [fmt, formatOneDec]
    rw [h15]
    decide
  · simp only [fmt, formatOneDec]
    rw [h23]
    decide
  · intro x hx
    simp [fmt, ge_iff_le, hx]
  · intro x hx hx'
    simp [fmt, ge_iff_le, hx, not_le.mpr hx']
  · intro x hx
    have h1 : ¬(1000000 ≤ x) := by
      intro h
      exact absurd (lt_of_le_of_lt h hx) (by norm_num)
    have h2 : ¬(1000 ≤ x) := not_le.mpr hx
    simp [fmt, ge_iff_le, h1, h2]

/-- C4 witness: the general `"M"` branch instantiated at 2_500_000. -/
theorem C4_fmt_magnitudes_witness :
    fmt 2500000 = formatOneDec ((2500000 : ℚ) / 1000000) ++ "M" :=
  C4_fmt_magnitudes.2.2.2.2.1 2500000 (by norm_num)

/-- C10: every value strictly below 1000 — in particular every negative
value — takes the final branch of `fmt` and renders as the truncated
integer string with no suffix; `fmt (-1500) = "-1500"`. -/
theorem C10_fmt_negative_truncation :
    (∀ x : ℚ, x < 1000 → fmt x = toString (pyTrunc x)) ∧
    fmt (-1500) = "-1500" := by
  constructor
  · intro x hx
    have h1 : ¬(1000000 ≤ x) := by
      intro h
      exact absurd (lt_of_le_of_lt h hx) (by norm_num)
    have h2 : ¬(1000 ≤ x) := not_le.mpr hx
    simp [fmt, ge_iff_le, h1, h2]
  · decide

/-- C10 witness: the truncation branch instantiated at `-1500`. -/
theorem C10_fmt_negative_truncation_witness :
    fmt (-1500) = toString (pyTrunc (-1500 : ℚ)) :=
  C10_fmt_negative_truncation.1 (-1500) (by norm_num)

/-- C3: on the state-year table with years 2019–2022 and recycled values
[100, 110, 99, 150], the growth bar rows are
[(2020, 10.0, green), (2021, -10.0, red), (2022, 51.5, green)] — the
percentages are rounded to one decimal (51.5 = 103/2) and the colour tag
is green (`"#2ca02c"`, the "positive" styling) exactly for the
non-negative growth values and red (`"#d62728"`, the "negative" styling)
for the negative one. -/
theorem C3_growth_end_to_end :
    growthTable
      [⟨2019, 500, 100, 12, 3⟩, ⟨2020, 510, 110, 11, 4⟩,
       ⟨2021, 520, 99, 10, 5⟩, ⟨2022, 530, 150, 9, 6⟩]
      = [(2020, PcVal.val 10, "#2ca02c"),
         (2021, PcVal.val (-10), "#d62728"),
         (2022, PcVal.val (103 / 2), "#2ca02c")] := by
  have hser : growthSeries
      [⟨2019, 500, 100, 12, 3⟩, ⟨2020, 510, 110, 11, 4⟩,
       ⟨2021, 520, 99, 10, 5⟩, ⟨2022, 530, 150, 9, 6⟩]
      = [(2020, PcVal.val ((110 - 100) / 100)),
         (2021, PcVal.val ((99 - 110) / 110)),
         (2022, PcVal.val ((150 - 99) / 99))] := rfl
  have e1 : round1 ((110 - 100) / 100 * 100 : ℚ) = 10 := by
    have h : roundHalfEven ((110 - 100) / 100 * 100 * 10 : ℚ) = 100 :=
      roundHalfEven_down (by norm_num) (by norm_num)
    rw [round1, h]
    norm_num
  have e2 : round1 ((99 - 110) / 110 * 100 : ℚ) = -10 := by
    have h : roundHalfEven ((99 - 110) / 110 * 100 * 10 : ℚ) = -100 :=
      roundHalfEven_down (by norm_num) (by norm_num)
    rw [round1, h]
    norm_num
  have e3 : round1 ((150 - 99) / 99 * 100 : ℚ) = 103 / 2 := by
    have h : roundHalfEven ((150 - 99) / 99 * 100 * 10 : ℚ) = 515 :=
      roundHalfEven_down (by norm_num) (by norm_num)
    rw [round1, h]
    norm_num
  rw [growthTable, hser]
  simp only [List.map, pctTimes100Round, growthColor, e1, e2, e3]
  norm_num

/-- C2: the claim says a non-empty slice whose metric maximum is 0 is
binned without an exception, every row getting "Very Low"; the code
instead hands `pd.cut` the six identical edges `[0, 0, 0, 0, 0, 0]`,
which raises `ValueError: Bin edges must be unique` — shown here both for
the bare binning call on the slice `[0]` and for the whole overview map
builder on a one-county table whose litter value is 0. -/
theorem C2_zero_max_binning_raises :
    intensityBin 0 [] = Except.error "Bin edges must be unique" ∧
    tabOverviewMap [⟨"Anderson", 2023, 0, 4, 2⟩] 2023 Metric.litter
      = Except.error "Bin edges must be unique" := by
  have herr : intensityBin 0 [] = Except.error "Bin edges must be unique" := by
    have hb : intensityBin 0 [] = pdCut [0] [0, 0, 0, 0, 0, 0] intensityLabels true := by
      simp [intensityBin]
    rw [hb]
    rfl
  refine ⟨herr, ?_⟩
  have hfil : (([⟨"Anderson", 2023, 0, 4, 2⟩] : List CountyYearRecord).filter
      (fun r => r.year = 2023)) = [⟨"Anderson", 2023, 0, 4, 2⟩] := by decide
  simp only [tabOverviewMap, hfil, metricVal, List.map_nil]
  rw [herr]
  rfl

/-- C9: a failed read of any required file (state-year CSV, county-year
CSV, GeoJSON) propagates its error out of `load_yearly_data`, which
succeeds exactly when all three reads succeed; `load_monthly_data`
recovers from a failed read of either optional monthly file by
substituting the empty table and never propagates an error. -/
theorem C9_load_error_policy :
    (∀ (e : String) (c : Except String (List CountyYearRecord))
        (g : Except String (List String)),
      load_yearly_data (Except.error e) c g = Except.error e) ∧
    (∀ (s : List StateYearRecord) (e : String) (g : Except String (List String)),
      load_yearly_data (Except.ok s) (Except.error e) g = Except.error e) ∧
    (∀ (s : List StateYearRecord) (c : List CountyYearRecord) (e : String),
      load_yearly_data (Except.ok s) (Except.ok c) (Except.error e) = Except.error e) ∧
    (∀ (s : List StateYearRecord) (c : List CountyYearRecord) (g : List String),
      ∃ out, load_yearly_data (Except.ok s) (Except.ok c) (Except.ok g) = Except.ok out) ∧
    (∀ (e : String) (ms : Except String (List StateMonthRecord)),
      (load_monthly_data (Except.error e) ms).1 = []) ∧
    (∀ (t : List CountyMonthRecord) (ms : Except String (List StateMonthRecord)),
      (load_monthly_data (Except.ok t) ms).1 = t) ∧
    (∀ (mc : Except String (List CountyMonthRecord)) (e : String),
      (load_monthly_data mc (Except.error e)).2 = []) ∧
    (∀ (mc : Except String (List CountyMonthRecord)) (t : List StateMonthRecord),
      (load_monthly_data mc (Except.ok t)).2 = t) := by
  refine ⟨fun e c g => rfl, fun s e g => rfl, fun s c e => rfl,
    fun s c g => ⟨_, rfl⟩, fun e ms => rfl, fun t ms => rfl, ?_, ?_⟩
  · intro mc e
    cases mc <;> rfl
  · intro mc t
    cases mc <;> rfl

/-- C9 witness: a failed required read and a failed optional read at
concrete inputs. -/
theorem C9_load_error_policy_witness :
    load_yearly_data (Except.error "read failed")
        (Except.ok ([] : List CountyYearRecord)) (Except.ok ([] : List String))
      = Except.error "read failed" ∧
    (load_monthly_data (Except.error "read failed")
        (Except.ok ([] : List StateMonthRecord))).1 = [] :=
  ⟨C9_load_error_policy.1 "read failed" (Except.ok []) (Except.ok []),
   C9_load_error_policy.2.2.2.2.1 "read failed" (Except.ok [])⟩

/-- C5: the monthly slice for a county and year is ordered by the fixed
fiscal-month sequence July, Aug, Sept, Oct, Nov, Dec, Jan, Feb, Mar, Apr,
May, June (the `month_order` categorical), as a permutation of the
filtered rows; in particular input months ["Dec", "July", "Jan"] resolve
to ["July", "Dec", "Jan"]. -/
theorem C5_fiscal_month_ordering :
    (∀ (df : List CountyMonthRecord) (county : String) (year : ℤ),
      (resolveMonthly df county year).Pairwise
        (fun a b => monthKey a.month ≤ monthKey b.month) ∧
      List.Perm (resolveMonthly df county year)
        (df.filter (fun r => r.county = county && r.year = year))) ∧
    (resolveMonthly
      [⟨"Anderson", 2022, "Dec", 1, 2⟩, ⟨"Anderson", 2022, "July", 3, 4⟩,
       ⟨"Anderson", 2022, "Jan", 5, 6⟩] "Anderson" 2022).map (fun r => r.month)
      = ["July", "Dec", "Jan"] := by
  refine ⟨fun df county year => ⟨pairwise_sortAscBy _ _, perm_sortAscBy _ _⟩, ?_⟩
  decide

/-- C5 witness: the universally quantified part at a concrete slice. -/
theorem C5_fiscal_month_ordering_witness :
    (resolveMonthly [⟨"Knox", 2021, "Oct", 1, 2⟩, ⟨"Knox", 2021, "Aug", 3, 4⟩]
        "Knox" 2021).Pairwise (fun a b => monthKey a.month ≤ monthKey b.month) ∧
    List.Perm (resolveMonthly [⟨"Knox", 2021, "Oct", 1, 2⟩, ⟨"Knox", 2021, "Aug", 3, 4⟩]
        "Knox" 2021)
      (([⟨"Knox", 2021, "Oct", 1, 2⟩, ⟨"Knox", 2021, "Aug", 3, 4⟩] :
          List CountyMonthRecord).filter
        (fun r => r.county = "Knox" && r.year = 2021)) :=
  C5_fiscal_month_ordering.1
    [⟨"Knox", 2021, "Oct", 1, 2⟩, ⟨"Knox", 2021, "Aug", 3, 4⟩] "Knox" 2021

/-- C6 counterexample: on a county-year table whose year slice is empty
the compare tab does not return an explicit empty/no-data result — it
renders a bar chart with zero bars and emits no message item. -/
theorem C6_compare_renders_plain_empty_chart :
    tabCompare [] 2023 Metric.litter = [RenderItem.barChart []] ∧
    hasNoDataMessage (tabCompare [] 2023 Metric.litter) = false := by
  exact ⟨rfl, rfl⟩

/-- C6: (amended) when the year-filtered county subset is empty, the
overview map builder emits the explicit warning "No data available for
selected year." without computing `max` or the bins, and the compare tab
raises no error but renders a bar chart with zero bars (and no no-data
message). -/
theorem C6_empty_year_no_data (df : List CountyYearRecord) (year : ℤ) (metric : Metric)
    (h : df.filter (fun r => r.year = year) = []) :
    tabOverviewMap df year metric
      = Except.ok [RenderItem.warning "No data available for selected year."] ∧
    tabCompare df year metric = [RenderItem.barChart []] := by
  constructor
  · simp only [tabOverviewMap, h]
  · simp only [tabCompare, top10, h, sortAscBy, List.reverse_nil, List.take_nil,
      List.map_nil]

/-- C6 witness: a one-row table for fiscal year 2021 with 2022 selected. -/
theorem C6_empty_year_no_data_witness :
    (([⟨"Knox", 2021, 1, 2, 3⟩] : List CountyYearRecord).filter
        (fun r => r.year = 2022) = []) ∧
    (tabOverviewMap [⟨"Knox", 2021, 1, 2, 3⟩] 2022 Metric.litter
        = Except.ok [RenderItem.warning "No data available for selected year."] ∧
      tabCompare [⟨"Knox", 2021, 1, 2, 3⟩] 2022 Metric.litter
        = [RenderItem.barChart []]) :=
  ⟨by decide, C6_empty_year_no_data _ 2022 Metric.litter (by decide)⟩

/-- C7 counterexample: `load_monthly_data` applies no county-name
normalisation, so a monthly county field " Shelby " is kept verbatim and
differs from the trimmed "Shelby" join key — the claim that the loader
trims county names in all loaded tables fails for the monthly table. -/
theorem C7_monthly_county_not_trimmed :
    (load_monthly_data (Except.ok [⟨" Shelby ", 2022, "July", 1, 2⟩])
        (Except.ok [])).1
      = [⟨" Shelby ", 2022, "July", 1, 2⟩] ∧
    (" Shelby " : String) ≠ "Shelby" := by
  exact ⟨rfl, by decide⟩

/-- C7: (amended) the loader trims whitespace from the county field of
the yearly county table only: " Shelby " and "Shelby" both load as
"Shelby" and coincide with the boundary-geometry key, while the monthly
county table is returned without any trimming. -/
theorem C7_yearly_trim_only :
    (∀ (s : List StateYearRecord) (rows : List CountyYearRecord) (g : List String),
      load_yearly_data (Except.ok s) (Except.ok rows) (Except.ok g)
        = Except.ok (s, rows.map (fun r => { r with county := pyStrip r.county }), g)) ∧
    pyStrip " Shelby " = "Shelby" ∧ pyStrip "Shelby" = "Shelby" ∧
    ((load_yearly_data (Except.ok [])
        (Except.ok [⟨" Shelby ", 2022, 1, 2, 3⟩, ⟨"Shelby", 2021, 4, 5, 6⟩])
        (Except.ok ["Shelby"])).map
      (fun out => out.2.1.map (fun r => r.county))) = Except.ok ["Shelby", "Shelby"] ∧
    (∀ (mc : List CountyMonthRecord) (ms : Except String (List StateMonthRecord)),
      (load_monthly_data (Except.ok mc) ms).1 = mc) := by
  exact ⟨fun s rows g => rfl, by decide, by decide, rfl, fun mc ms => rfl⟩

/-- C7 witness: the universally quantified trim step at a concrete table. -/
theorem C7_yearly_trim_only_witness :
    load_yearly_data (Except.ok []) (Except.ok [⟨" Polk", 2020, 1, 2, 3⟩])
        (Except.ok [])
      = Except.ok ([], [⟨pyStrip " Polk", 2020, 1, 2, 3⟩], []) :=
  C7_yearly_trim_only.1 [] [⟨" Polk", 2020, 1, 2, 3⟩] []

/-- C8: the top-10 slice is drawn from the year-filtered rows, has
`min 10 n` rows, is ordered by non-increasing metric value, and ties are
broken by stable input order: for every metric value `v` the `v`-valued
rows of the result form an order-preserving subsequence of the
`v`-valued rows of the year slice (pandas `nargsort` reverses the rows
before the stable ascending argsort and the indexer after it, so the
double reversal cancels on each tie class); concretely, two counties
with equal litter keep their input order ["Anderson", "Bedford"]. -/
theorem C8_top10_stable_descending :
    (∀ (df : List CountyYearRecord) (year : ℤ) (metric : Metric),
      (top10 df year metric).Pairwise
        (fun a b => metricVal metric b ≤ metricVal metric a) ∧
      (top10 df year metric).length
        = min 10 (df.filter (fun r => r.year = year)).length ∧
      List.Subperm (top10 df year metric) (df.filter (fun r => r.year = year)) ∧
      (∀ v : ℚ, List.Sublist
        ((top10 df year metric).filter (fun r => metricVal metric r = v))
        ((df.filter (fun r => r.year = year)).filter
          (fun r => metricVal metric r = v)))) ∧
    ((top10 [⟨"Anderson", 2022, 5, 1, 1⟩, ⟨"Bedford", 2022, 5, 2, 2⟩]
        2022 Metric.litter).map (fun r => r.county)) = ["Anderson", "Bedford"] := by
  refine ⟨fun df year metric => ⟨?_, ?_, ?_, ?_⟩, by decide⟩
  · have hs := pairwise_sortAscBy (metricVal metric)
      ((df.filter (fun r => r.year = year)).reverse)
    have hr : ((sortAscBy (metricVal metric)
        ((df.filter (fun r => r.year = year)).reverse)).reverse).Pairwise
        (fun a b => metricVal metric b ≤ metricVal metric a) := by
      rw [List.pairwise_reverse]
      exact hs
    exact hr.sublist (List.take_sublist _ _)
  · simp [top10, List.length_take, length_sortAscBy]
  · exact ((List.take_sublist _ _).subperm).trans
      ((((List.reverse_perm _).trans (perm_sortAscBy _ _)).trans
        (List.reverse_perm _)).subperm)
  · intro v
    have h1 := (List.take_sublist 10
      ((sortAscBy (metricVal metric)
        ((df.filter (fun r => r.year = year)).reverse)).reverse)).filter
      (fun r => metricVal metric r = v)
    have h2 : (((sortAscBy (metricVal metric)
        ((df.filter (fun r => r.year = year)).reverse)).reverse).filter
          (fun r => metricVal metric r = v))
        = (df.filter (fun r => r.year = year)).filter
            (fun r => metricVal metric r = v) := by
      rw [List.filter_reverse, filter_sortAscBy, List.filter_reverse,
        List.reverse_reverse]
    rw [h2] at h1
    exact h1

/-- C8 witness: the universally quantified part at a concrete table,
with the tie-class condition instantiated at metric value 9. -/
theorem C8_top10_stable_descending_witness :
    (top10 [⟨"Greene", 2020, 3, 1, 1⟩, ⟨"Hardin", 2020, 9, 1, 1⟩] 2020
        Metric.litter).Pairwise
      (fun a b => metricVal Metric.litter b ≤ metricVal Metric.litter a) ∧
    (top10 [⟨"Greene", 2020, 3, 1, 1⟩, ⟨"Hardin", 2020, 9, 1, 1⟩] 2020
        Metric.litter).length
      = min 10 (([⟨"Greene", 2020, 3, 1, 1⟩, ⟨"Hardin", 2020, 9, 1, 1⟩] :
          List CountyYearRecord).filter
          (fun r => r.year = 2020)).length ∧
    List.Subperm (top10 [⟨"Greene", 2020, 3, 1, 1⟩, ⟨"Hardin", 2020, 9, 1, 1⟩] 2020
        Metric.litter)
      (([⟨"Greene", 2020, 3, 1, 1⟩, ⟨"Hardin", 2020, 9, 1, 1⟩] :
          List CountyYearRecord).filter
        (fun r => r.year = 2020)) ∧
    List.Sublist
      ((top10 [⟨"Greene", 2020, 3, 1, 1⟩, ⟨"Hardin", 2020, 9, 1, 1⟩] 2020
          Metric.litter).filter (fun r => metricVal Metric.litter r = 9))
      ((([⟨"Greene", 2020, 3, 1, 1⟩, ⟨"Hardin", 2020, 9, 1, 1⟩] :
          List CountyYearRecord).filter (fun r => r.year = 2020)).filter
        (fun r => metricVal Metric.litter r = 9)) :=
  ⟨(C8_top10_stable_descending.1 [⟨"Greene", 2020, 3, 1, 1⟩,
      ⟨"Hardin", 2020, 9, 1, 1⟩] 2020 Metric.litter).1,
   (C8_top10_stable_descending.1 [⟨"Greene", 2020, 3, 1, 1⟩,
      ⟨"Hardin", 2020, 9, 1, 1⟩] 2020 Metric.litter).2.1,
   (C8_top10_stable_descending.1 [⟨"Greene", 2020, 3, 1, 1⟩,
      ⟨"Hardin", 2020, 9, 1, 1⟩] 2020 Metric.litter).2.2.1,
   (C8_top10_stable_descending.1 [⟨"Greene", 2020, 3, 1, 1⟩,
      ⟨"Hardin", 2020, 9, 1, 1⟩] 2020 Metric.litter).2.2.2 9⟩

/-- C1 counterexample: a state-year table whose two recycled values are
both 0 produces a `0/0` NaN in `pct_change`, and `dropna` removes that
row too: the growth series is empty although `len(years) - 1 = 1`. -/
theorem C1_zero_zero_pair_drops_row :
    growthSeries [⟨2019, 1, 0, 1, 1⟩, ⟨2020, 1, 0, 1, 1⟩] = [] ∧
    ([(⟨2019, 1, 0, 1, 1⟩ : StateYearRecord), ⟨2020, 1, 0, 1, 1⟩].length - 1) = 1 := by
  exact ⟨rfl, rfl⟩

/-- C1: (amended) for a non-empty state-year table with distinct years
in which no consecutive pair of sorted recycled values is (0, 0), the
growth series has exactly `len(years) - 1` entries; the earliest fiscal
year never appears in the series (this part needs no zero-pair
condition beyond distinctness of years). -/
theorem C1_growth_series_shape (df : List StateYearRecord)
    (hne : df ≠ [])
    (hnodup : (df.map (fun r => r.year)).Nodup)
    (hz : List.Chain' (fun a b => ¬(a = 0 ∧ b = 0))
      ((sortAscBy (fun r => r.year) df).map (fun r => r.recycled))) :
    (growthSeries df).length = df.length - 1 ∧
    firstYear df ∉ (growthSeries df).map Prod.fst := by
  have hgrow : growthSeries df
      = (pcList ((sortAscBy (fun r => r.year) df).map
          (fun r => (r.year, r.recycled)))).filter (fun p => p.2 ≠ PcVal.nan) := rfl
  have hchain : List.Chain' (fun a b => ¬(a = 0 ∧ b = 0))
      (((sortAscBy (fun r => r.year) df).map
        (fun r => (r.year, r.recycled))).map Prod.snd) := by
    rw [List.map_map]
    exact hz
  have hlen := length_filter_pcList _ hchain
  constructor
  · rw [hgrow, hlen, List.length_map, length_sortAscBy]
  · intro hmem
    obtain ⟨p, hp, hfst⟩ := List.mem_map.mp hmem
    rw [hgrow] at hp
    have hp2 : p ∈ pcList ((sortAscBy (fun r => r.year) df).map
        (fun r => (r.year, r.recycled))) := List.mem_of_mem_filter hp
    have hmem2 : p.1 ∈ (pcList ((sortAscBy (fun r => r.year) df).map
        (fun r => (r.year, r.recycled)))).map Prod.fst := List.mem_map_of_mem _ hp2
    rw [pcList_map_fst, List.map_map] at hmem2
    cases hsplit : sortAscBy (fun r => r.year) df with
    | nil =>
      have hl := (perm_sortAscBy (fun r => r.year) df).length_eq
      rw [hsplit] at hl
      exact hne (List.length_eq_zero.mp hl.symm)
    | cons r0 rest =>
      have hfy : firstYear df = r0.year := by rw [firstYear, hsplit]
      have hnd : ((sortAscBy (fun r => r.year) df).map (fun r => r.year)).Nodup :=
        (((perm_sortAscBy (fun r => r.year) df).map (fun r => r.year)).nodup_iff).mpr hnodup
      rw [hsplit] at hnd hmem2
      simp only [List.map_cons, List.tail_cons] at hmem2
      rw [hfst, hfy] at hmem2
      rw [List.map_cons, List.nodup_cons] at hnd
      exact hnd.1 hmem2

/-- C1 witness: a three-year table with nonzero recycled values. -/
theorem C1_growth_series_shape_witness :
    (growthSeries [⟨2018, 1, 50, 1, 1⟩, ⟨2019, 1, 60, 1, 1⟩, ⟨2020, 1, 45, 1, 1⟩]).length
        = ([(⟨2018, 1, 50, 1, 1⟩ : StateYearRecord), ⟨2019, 1, 60, 1, 1⟩,
            ⟨2020, 1, 45, 1, 1⟩].length - 1) ∧
    firstYear [⟨2018, 1, 50, 1, 1⟩, ⟨2019, 1, 60, 1, 1⟩, ⟨2020, 1, 45, 1, 1⟩]
      ∉ (growthSeries [⟨2018, 1, 50, 1, 1⟩, ⟨2019, 1, 60, 1, 1⟩,
          ⟨2020, 1, 45, 1, 1⟩]).map Prod.fst := by
  have hs : sortAscBy (fun r : StateYearRecord => r.year)
      [⟨2018, 1, 50, 1, 1⟩, ⟨2019, 1, 60, 1, 1⟩, ⟨2020, 1, 45, 1, 1⟩]
      = [⟨2018, 1, 50, 1, 1⟩, ⟨2019, 1, 60, 1, 1⟩, ⟨2020, 1, 45, 1, 1⟩] := by decide
  refine C1_growth_series_shape _ (by decide) (by decide) ?_
  rw [hs]
  simp only [List.map_cons, List.map_nil, List.chain'_cons, List.chain'_singleton,
    and_true]
  refine ⟨?_, ?_⟩ <;> decide

end TNLitter
